import Mathlib

/-!
Verification of the Click2Eat report service (`src/controller/report.controller.js`).

The development shallowly embeds the data model (the Mongoose schemas for
orders, order items, customers and users) and the five aggregation
pipelines of the report controller as executable Lean functions, then
proves the stated properties of the report shapes, the inner-join drop
policy, the admin gate and the response envelopes.
-/

namespace Click2Eat

/-- Timestamp of a document (`createdAt`), abstracted to calendar fields plus
a seconds-within-day component so that day/month bucketing and `$max`
comparisons are expressible. -/
structure Timestamp where
  year  : Nat
  month : Nat
  day   : Nat
  secs  : Nat
deriving DecidableEq

/-- Customer document (collection `customers`), as read by the
order-status and customer-order pipelines (`fullName`, `email`, `phone`). -/
structure Customer where
  id       : Nat
  fullName : String
  email    : String
  phone    : String
deriving DecidableEq

/-- User document (collection `users`), as read by the daily-sales
pipeline (field `name`). -/
structure UserRec where
  id   : Nat
  name : String
deriving DecidableEq

/-- Order-item document, from `OrderItemsSchema`: `order_id`, `product_id`,
`quantity`, `unit_price`, `total_price` (plus timestamps, irrelevant here).
The schema declares no `name` or `category` field. -/
structure OrderItem where
  id          : Nat
  order_id    : Nat
  product_id  : String
  quantity    : Int
  unit_price  : Int
  total_price : Int
deriving DecidableEq

/-- Dynamic read of a string-valued field off an order-item document.
The `OrderItemsSchema` is strict, so a stored document carries exactly the
schema's fields; `product_id` is its only string-typed field, and reading
any other field name yields a missing value (`none`). -/
def OrderItem.getStr (it : OrderItem) (field : String) : Option String :=
  if field = "product_id" then some it.product_id else none

/-- Order document, from `OrderSchema`: customer reference, list of
order-item references (`items`), prices, status and creation timestamp.
Fields not read by any report pipeline are omitted. -/
structure Order where
  id          : Nat
  customer_id : Nat
  items       : List Nat
  total_price : Int
  unit_price  : Int
  status      : String
  createdAt   : Timestamp
deriving DecidableEq

/-- Snapshot of the document store's four collections at query time. -/
structure DB where
  orders     : List Order
  orderItems : List OrderItem
  users      : List UserRec
  customers  : List Customer
deriving DecidableEq

/-! ## Pipeline primitives -/

/-- Key list of a `$group` stage: the distinct keys of the input documents
in order of first arrival. -/
def dedupFirst {κ : Type} [DecidableEq κ] : List κ → List κ
  | [] => []
  | k :: ks => k :: (dedupFirst ks).filter (fun x => !(decide (x = k)))

/-- One-to-many `$lookup` of order items by owning-order back-reference
(`localField: _id`, `foreignField: order_id`). -/
def lookupItemsByOrderId (its : List OrderItem) (oid : Nat) : List OrderItem :=
  its.filter (fun it => decide (it.order_id = oid))

/-- One-to-many `$lookup` of order items by the order's item-reference
array (`localField: items`, `foreignField: _id`). -/
def lookupItemsByIds (its : List OrderItem) (ids : List Nat) : List OrderItem :=
  its.filter (fun it => decide (it.id ∈ ids))

/-- One-to-one customer join of the daily-sales pipeline: `$lookup` from
`users` followed by `$arrayElemAt` 0, i.e. the first matching user if any. -/
def lookupUserFirst (us : List UserRec) (cid : Nat) : Option UserRec :=
  (us.filter (fun u => decide (u.id = cid))).head?

/-- Lexicographic order on day keys `(year, month, day)`, matching the
order of the formatted `%Y-%m-%d` strings the pipeline sorts on. -/
def tripleLe (a b : Nat × Nat × Nat) : Bool :=
  decide (a.1 < b.1) ||
    (decide (a.1 = b.1) &&
      (decide (a.2.1 < b.2.1) ||
        (decide (a.2.1 = b.2.1) && decide (a.2.2 ≤ b.2.2))))

/-- Lexicographic order on month keys `(year, month)`, matching the order
of the formatted `%Y-%m` strings the pipeline sorts on. -/
def pairLe (a b : Nat × Nat) : Bool :=
  decide (a.1 < b.1) || (decide (a.1 = b.1) && decide (a.2 ≤ b.2))

/-- Strict lexicographic comparison of character lists by code point,
matching binary comparison of the encoded strings. -/
def strLtAux : List Char → List Char → Bool
  | [], [] => false
  | [], _ :: _ => true
  | _ :: _, [] => false
  | a :: as, b :: bs =>
      decide (a.toNat < b.toNat) || (decide (a = b) && strLtAux as bs)

/-- String order used by the `$sort` on status keys. -/
def strLe (s t : String) : Bool := strLtAux s.data t.data || decide (s = t)

/-- Lexicographic order on timestamps, used by the `$max: createdAt`
accumulator. -/
def Timestamp.le (a b : Timestamp) : Bool :=
  decide (a.year < b.year) ||
    (decide (a.year = b.year) &&
      (decide (a.month < b.month) ||
        (decide (a.month = b.month) &&
          (decide (a.day < b.day) ||
            (decide (a.day = b.day) && decide (a.secs ≤ b.secs))))))

/-- The `$max` accumulator over the creation timestamps of a group. -/
def maxCreatedAt (grp : List Order) : Option Timestamp :=
  grp.foldl
    (fun acc o =>
      match acc with
      | none => some o.createdAt
      | some t => some (if Timestamp.le t o.createdAt then o.createdAt else t))
    none

/-- Day key of an order's creation timestamp (`$dateToString %Y-%m-%d`). -/
def dayKey (t : Timestamp) : Nat × Nat × Nat := (t.year, t.month, t.day)

/-- Month key of an order's creation timestamp (`$dateToString %Y-%m`). -/
def monthKey (t : Timestamp) : Nat × Nat := (t.year, t.month)

/-! ## Daily sales report -/

/-- Status list of the `$match` stage shared by the daily and monthly
sales pipelines. -/
def dailyMatchStatuses : List String :=
  ["completed", "pending", "confirmed", "cancelled"]

/-- Record pushed into a day bucket's `orders` array: customer name (from
the user join, absent when unmatched), status, joined items, total. -/
structure DailyOrderRec where
  customer : Option String
  status   : String
  items    : List OrderItem
  total    : Int
deriving DecidableEq

/-- One day bucket of the daily sales report. -/
structure DailyBucket where
  date        : Nat × Nat × Nat
  orders      : List DailyOrderRec
  totalOrders : Nat
  totalSales  : Int
deriving DecidableEq

/-- The pushed record for one order in the daily sales pipeline, after the
item and user lookups. -/
def dailyOrderRec (db : DB) (o : Order) : DailyOrderRec :=
  { customer := (lookupUserFirst db.users o.customer_id).map UserRec.name
    status := o.status
    items := lookupItemsByOrderId db.orderItems o.id
    total := o.total_price }

/-- Orders passing the `$match` stage of the daily and monthly sales
pipelines. -/
def dailyMatched (db : DB) : List Order :=
  db.orders.filter (fun o => decide (o.status ∈ dailyMatchStatuses))

/-- The day-key group of the daily sales pipeline. -/
def dailyGrp (db : DB) (k : Nat × Nat × Nat) : List Order :=
  (dailyMatched db).filter (fun o => decide (dayKey o.createdAt = k))

/-- The day bucket built by the `$group` stage for one day key. -/
def dailyBucket (db : DB) (k : Nat × Nat × Nat) : DailyBucket :=
  { date := k
    orders := (dailyGrp db k).map (dailyOrderRec db)
    totalOrders := (dailyGrp db k).length
    totalSales := ((dailyGrp db k).map Order.total_price).sum }

/-- Daily sales pipeline: `$match` on status, item and user `$lookup`s,
`$group` by day of `createdAt` with push/count/sum accumulators, `$sort`
by date descending. -/
def dailySalesReport (db : DB) : List DailyBucket :=
  ((dedupFirst ((dailyMatched db).map (fun o => dayKey o.createdAt))).map
      (dailyBucket db)).insertionSort
    (fun b c => tripleLe c.date b.date = true)

/-! ## Monthly sales report -/

/-- One month bucket of the monthly sales report. -/
structure MonthBucket where
  month       : Nat × Nat
  totalOrders : Nat
  totalSales  : Int
deriving DecidableEq

/-- The month-key group of the monthly sales pipeline. -/
def monthlyGrp (db : DB) (k : Nat × Nat) : List Order :=
  (dailyMatched db).filter (fun o => decide (monthKey o.createdAt = k))

/-- The month bucket built by the `$group` stage for one month key. -/
def monthBucket (db : DB) (k : Nat × Nat) : MonthBucket :=
  { month := k
    totalOrders := (monthlyGrp db k).length
    totalSales := ((monthlyGrp db k).map Order.total_price).sum }

/-- Monthly sales pipeline: `$match` on status, `$group` by month of
`createdAt` with count/sum accumulators, `$sort` by month descending. -/
def monthlySalesReport (db : DB) : List MonthBucket :=
  ((dedupFirst ((dailyMatched db).map (fun o => monthKey o.createdAt))).map
      (monthBucket db)).insertionSort
    (fun b c => pairLe c.month b.month = true)

/-! ## Order status report -/

/-- Status list of the `$match` stage of the order-status pipeline. -/
def statusMatchStatuses : List String :=
  ["pending", "completed", "confirmed", "cancelled"]

/-- Result of the first `$group` (by status and customer reference) of the
order-status pipeline. -/
structure StatusCustGroup where
  status        : String
  customerId    : Nat
  totalOrders   : Nat
  totalItems    : Int
  totalSpent    : Int
  lastOrderDate : Option Timestamp
deriving DecidableEq

/-- Customer summary pushed into a status's `users` array. -/
structure UserSummary where
  customer_id   : Nat
  fullName      : String
  email         : String
  phone         : String
  totalOrders   : Nat
  totalItems    : Int
  totalSpent    : Int
  lastOrderDate : Option Timestamp
deriving DecidableEq

/-- Orders passing the `$match` stage of the order-status pipeline. -/
def osMatched (db : DB) : List Order :=
  db.orders.filter (fun o => decide (o.status ∈ statusMatchStatuses))

/-- The `(status, customer)` group of the order-status pipeline. -/
def osGrp (db : DB) (k : String × Nat) : List Order :=
  (osMatched db).filter (fun o => decide ((o.status, o.customer_id) = k))

/-- The group document built by the first `$group` stage for one
`(status, customer)` key: count, item-quantity sum (over the items joined
by order back-reference), spent sum and latest creation date. -/
def osGroup (db : DB) (k : String × Nat) : StatusCustGroup :=
  { status := k.1
    customerId := k.2
    totalOrders := (osGrp db k).length
    totalItems :=
      ((osGrp db k).map (fun o =>
        ((lookupItemsByOrderId db.orderItems o.id).map OrderItem.quantity).sum)).sum
    totalSpent := ((osGrp db k).map Order.total_price).sum
    lastOrderDate := maxCreatedAt (osGrp db k) }

/-- First grouping stage of the order-status pipeline: one group document
per distinct `(status, customer_id)` key of the matched orders. -/
def orderStatusGroups (db : DB) : List StatusCustGroup :=
  (dedupFirst ((osMatched db).map (fun o => (o.status, o.customer_id)))).map (osGroup db)

/-- The projected row of the order-status pipeline for group `g` joined
to customer document `c`. -/
def osRow (g : StatusCustGroup) (c : Customer) : UserSummary :=
  { customer_id := c.id
    fullName := c.fullName
    email := c.email
    phone := c.phone
    totalOrders := g.totalOrders
    totalItems := g.totalItems
    totalSpent := g.totalSpent
    lastOrderDate := g.lastOrderDate }

/-- Customer join and `$unwind` of the order-status pipeline: each group
produces one projected row per matching customer document, and a group
with no matching customer is dropped. -/
def orderStatusJoined (db : DB) : List (String × UserSummary) :=
  (orderStatusGroups db).flatMap (fun g =>
    (db.customers.filter (fun c => decide (c.id = g.customerId))).map (fun c =>
      (g.status, osRow g c)))

/-- Order-status pipeline result after the final `$group` by status, the
`$sort` by status ascending, and the `forEach` that turns the rows into an
object keyed by status: an association list from status to its pushed
customer summaries. -/
def orderStatusReport (db : DB) : List (String × List UserSummary) :=
  ((dedupFirst ((orderStatusJoined db).map Prod.fst)).map (fun s =>
      (s, ((orderStatusJoined db).filter (fun r => decide (r.1 = s))).map
        Prod.snd))).insertionSort
    (fun a b => strLe a.1 b.1 = true)

/-! ## Customer order report -/

/-- Status list of the `$match` stage shared by the customer-order and
product-sales pipelines. -/
def completedConfirmed : List String := ["completed", "confirmed"]

/-- Orders passing the `$match` stage of the customer-order and
product-sales pipelines. -/
def uoMatched (db : DB) : List Order :=
  db.orders.filter (fun o => decide (o.status ∈ completedConfirmed))

/-- The per-customer group of the customer-order pipeline. -/
def uoGrp (db : DB) (cid : Nat) : List Order :=
  (uoMatched db).filter (fun o => decide (o.customer_id = cid))

/-- The projected row of the customer-order pipeline for the group of
customer reference `cid` joined to customer document `c`. -/
def uoRow (db : DB) (cid : Nat) (c : Customer) : UserSummary :=
  { customer_id := c.id
    fullName := c.fullName
    email := c.email
    phone := c.phone
    totalOrders := (uoGrp db cid).length
    totalItems :=
      ((uoGrp db cid).map (fun o =>
        ((lookupItemsByIds db.orderItems o.items).map OrderItem.quantity).sum)).sum
    totalSpent := ((uoGrp db cid).map Order.total_price).sum
    lastOrderDate := maxCreatedAt (uoGrp db cid) }

/-- Customer-order pipeline: `$match` on completed/confirmed, item
`$lookup` via the order's item-reference array, `$group` by customer
reference, inner join to `customers` with `$unwind`, projection to
customer summaries, `$sort` by `totalSpent` descending. -/
def userOrderReport (db : DB) : List UserSummary :=
  ((dedupFirst ((uoMatched db).map Order.customer_id)).flatMap (fun cid =>
      (db.customers.filter (fun c => decide (c.id = cid))).map
        (uoRow db cid))).insertionSort
    (fun a b => b.totalSpent ≤ a.totalSpent)

/-! ## Product sales report -/

/-- One row of the product-sales report. `product_key` is the group `_id`;
`product_id`, `name`, `category` and `unit_price` are `$first`
accumulators, where `name` and `category` are dynamic reads of fields the
order-item schema does not declare. -/
structure ProductRow where
  product_key : String
  product_id  : Option String
  name        : Option String
  category    : Option String
  unit_price  : Option Int
  quantity    : Int
  total_price : Int
deriving DecidableEq

/-- The unwound order-item rows of the product-sales pipeline: for each
matched order, the order items joined via its item-reference array,
flattened one row per item. -/
def userProductRows (db : DB) : List OrderItem :=
  (uoMatched db).flatMap (fun o => lookupItemsByIds db.orderItems o.items)

/-- The per-product group of unwound item rows. -/
def upGrp (db : DB) (p : String) : List OrderItem :=
  (userProductRows db).filter (fun it => decide (it.product_id = p))

/-- The product row built by the `$group` stage for one product id. -/
def productRow (db : DB) (p : String) : ProductRow :=
  { product_key := p
    product_id := ((upGrp db p).map OrderItem.product_id).head?
    name := (upGrp db p).head?.bind (fun it => it.getStr ("name"))
    category := (upGrp db p).head?.bind (fun it => it.getStr ("category"))
    unit_price := ((upGrp db p).map OrderItem.unit_price).head?
    quantity := ((upGrp db p).map OrderItem.quantity).sum
    total_price := ((upGrp db p).map OrderItem.total_price).sum }

/-- Product-sales pipeline: `$match` on completed/confirmed, item
`$lookup` via the item-reference array, `$unwind`, `$group` by
`product_id` with first/sum accumulators, `$sort` by quantity
descending. -/
def userProductReport (db : DB) : List ProductRow :=
  ((dedupFirst ((userProductRows db).map OrderItem.product_id)).map
      (productRow db)).insertionSort
    (fun a b => b.quantity ≤ a.quantity)

/-! ## Handler envelopes and the admin gate -/

/-- The caller's user object (`req.user`) as the report functions read it:
`is_admin` flag and `role` string. -/
structure UserCtx where
  is_admin : Bool
  role     : String
deriving DecidableEq

/-- JSON body of a report response: the success envelope
`{success: true, report}`, an `{error: msg}` body, or a `{message: msg}`
body. -/
inductive Body (α : Type) where
  | success (report : α)
  | errJson (msg : String)
  | msgJson (msg : String)
deriving DecidableEq

/-- Discriminator for the success envelope. -/
def Body.isSuccess {α : Type} : Body α → Bool
  | .success _ => true
  | _ => false

/-- Discriminator for `{error: msg}` bodies. -/
def Body.isErrJson {α : Type} : Body α → Bool
  | .errJson _ => true
  | _ => false

/-- HTTP response: status code and JSON body. -/
structure Response (α : Type) where
  status : Nat
  body   : Body α
deriving DecidableEq

/-- Outcome of one handler call: whether the store query was issued, and
the response sent. -/
structure HandlerRun (α : Type) where
  queried : Bool
  resp    : Response α
deriving DecidableEq

/-- Common control flow of every report handler: deny with 403
`{error: "Access denied"}` when `req.user?.is_admin` is falsy, deny with
403 `{message: "Forbidden"}` when the role is not `admin`, otherwise run
the aggregation and answer 200 `{success: true, report}` on success or
500 `{error: errMsg}` when the query throws. -/
def runHandler {α : Type} (user : Option UserCtx) (errMsg : String)
    (q : Except String α) : HandlerRun α :=
  match user with
  | none => ⟨false, ⟨403, Body.errJson ("Access denied")⟩⟩
  | some u =>
    if u.is_admin = false then ⟨false, ⟨403, Body.errJson ("Access denied")⟩⟩
    else if u.role ≠ "admin" then ⟨false, ⟨403, Body.msgJson ("Forbidden")⟩⟩
    else
      match q with
      | .ok r => ⟨true, ⟨200, Body.success r⟩⟩
      | .error _ => ⟨true, ⟨500, Body.errJson errMsg⟩⟩

/-- Whether the admin gate passes: a user object is present with a truthy
`is_admin` flag and role `admin`. -/
def adminOk (user : Option UserCtx) : Bool :=
  match user with
  | none => false
  | some u => u.is_admin && decide (u.role = "admin")

/-- The daily-sales endpoint: admin gate, then the aggregation over the
store snapshot (`q` is the snapshot read, which may fail). -/
def dailySalesEndpoint (user : Option UserCtx) (q : Except String DB) :
    HandlerRun (List DailyBucket) :=
  runHandler user ("Report error") (q.map dailySalesReport)

/-- The monthly-sales endpoint. -/
def monthlySalesEndpoint (user : Option UserCtx) (q : Except String DB) :
    HandlerRun (List MonthBucket) :=
  runHandler user ("Failed to generate monthly sales report") (q.map monthlySalesReport)

/-- The order-status endpoint. -/
def orderStatusEndpoint (user : Option UserCtx) (q : Except String DB) :
    HandlerRun (List (String × List UserSummary)) :=
  runHandler user ("Failed to generate user report") (q.map orderStatusReport)

/-- The customer-order endpoint. -/
def userOrderEndpoint (user : Option UserCtx) (q : Except String DB) :
    HandlerRun (List UserSummary) :=
  runHandler user ("Failed to generate user report") (q.map userOrderReport)

/-- The product-sales endpoint. -/
def userProductEndpoint (user : Option UserCtx) (q : Except String DB) :
    HandlerRun (List ProductRow) :=
  runHandler user ("Failed to generate user product report") (q.map userProductReport)

/-! ## Report generation as a state transformer

Each pipeline is a pure read: it contains no write stage (`$out` or
`$merge`), so running a report returns the store snapshot unchanged
together with the computed report. -/

/-- Daily-sales generation over the store state. -/
def runDailySales (db : DB) : DB × List DailyBucket := (db, dailySalesReport db)

/-- Monthly-sales generation over the store state. -/
def runMonthlySales (db : DB) : DB × List MonthBucket := (db, monthlySalesReport db)

/-- Order-status generation over the store state. -/
def runOrderStatus (db : DB) : DB × List (String × List UserSummary) :=
  (db, orderStatusReport db)

/-- Customer-order generation over the store state. -/
def runUserOrder (db : DB) : DB × List UserSummary := (db, userOrderReport db)

/-- Product-sales generation over the store state. -/
def runUserProduct (db : DB) : DB × List ProductRow := (db, userProductReport db)

/-! ## Concrete sample data -/

/-- Sample customer document. -/
def exCustomer : Customer :=
  { id := 1, fullName := "Alice", email := "alice@example.com", phone := "555" }

/-- Sample user document with the same identifier. -/
def exUser : UserRec := { id := 1, name := "Alice" }

/-- Sample order item: product P1, quantity 2 at unit price 50. -/
def exItem : OrderItem :=
  { id := 10, order_id := 100, product_id := "P1", quantity := 2,
    unit_price := 50, total_price := 100 }

/-- Sample completed order of customer 1, created 2024-03-05. -/
def exOrder : Order :=
  { id := 100, customer_id := 1, items := [10], total_price := 100,
    unit_price := 50, status := "completed",
    createdAt := { year := 2024, month := 3, day := 5, secs := 0 } }

/-- Sample store snapshot with fully matched references. -/
def exDB : DB :=
  { orders := [exOrder], orderItems := [exItem], users := [exUser],
    customers := [exCustomer] }

/-- Pending order of customer 7, who matches no user or customer
document. -/
def exOrder2 : Order :=
  { id := 200, customer_id := 7, items := [], total_price := 60,
    unit_price := 60, status := "pending",
    createdAt := { year := 2024, month := 3, day := 6, secs := 0 } }

/-- Store snapshot with one order whose customer reference is dangling. -/
def exDB2 : DB := { orders := [exOrder2], orderItems := [], users := [], customers := [] }

/-- Cancelled order of customer 2, who matches no customer document. -/
def exOrder3 : Order :=
  { id := 300, customer_id := 2, items := [], total_price := 40,
    unit_price := 40, status := "cancelled",
    createdAt := { year := 2024, month := 3, day := 7, secs := 0 } }

/-- Store snapshot mixing a matched completed order with an unmatched
cancelled one. -/
def exDB3 : DB :=
  { orders := [exOrder, exOrder3], orderItems := [exItem], users := [exUser],
    customers := [exCustomer] }

/-- The customer summary the order-status and customer-order pipelines
produce for `exOrder` in `exDB`/`exDB3`. -/
def aliceSummary : UserSummary :=
  { customer_id := 1, fullName := "Alice", email := "alice@example.com",
    phone := "555", totalOrders := 1, totalItems := 2, totalSpent := 100,
    lastOrderDate := some { year := 2024, month := 3, day := 5, secs := 0 } }

/-- The product row the product-sales pipeline produces for `exDB`. -/
def exProductRow : ProductRow :=
  { product_key := "P1", product_id := some ("P1"), name := none,
    category := none, unit_price := some 50, quantity := 2,
    total_price := 100 }

/-! ## Generic grouping lemmas -/

theorem mem_dedupFirst {κ : Type} [DecidableEq κ] {a : κ} {l : List κ} :
    a ∈ dedupFirst l ↔ a ∈ l := by
  induction l with
  | nil => simp [dedupFirst]
  | cons k ks ih =>
    by_cases h : a = k
    · simp [dedupFirst, h]
    · simp [dedupFirst, List.mem_filter, ih, h]

theorem nodup_dedupFirst {κ : Type} [DecidableEq κ] : ∀ l : List κ, (dedupFirst l).Nodup
  | [] => by simp [dedupFirst]
  | k :: ks => by
    rw [dedupFirst, List.nodup_cons]
    refine ⟨?_, (nodup_dedupFirst ks).filter _⟩
    intro hmem
    have := (List.mem_filter.mp hmem).2
    simp at this

theorem countP_eq_one_of_nodup {κ : Type} [DecidableEq κ] {l : List κ}
    (h : l.Nodup) {a : κ} (ha : a ∈ l) :
    l.countP (fun x => decide (x = a)) = 1 := by
  induction l with
  | nil => cases ha
  | cons b l ih =>
    rw [List.nodup_cons] at h
    rw [List.countP_cons]
    rcases List.mem_cons.mp ha with rfl | hal
    · have h0 : l.countP (fun x => decide (x = a)) = 0 := by
        rw [List.countP_eq_zero]
        intro x hx
        simp only [decide_eq_true_eq]
        rintro rfl
        exact h.1 hx
      simp [h0]
    · have hba : ¬b = a := fun hba => h.1 (hba ▸ hal)
      simp [ih h.2 hal, hba]

theorem sum_map_add_nat {κ : Type} (M : List κ) (f g : κ → Nat) :
    (M.map (fun k => f k + g k)).sum = (M.map f).sum + (M.map g).sum := by
  induction M with
  | nil => simp
  | cons k M ih => simp [ih]; omega

theorem sum_indicator_one {κ : Type} [DecidableEq κ] {M : List κ}
    (hM : M.Nodup) {y : κ} (hy : y ∈ M) :
    (M.map (fun k => if y = k then 1 else 0)).sum = 1 := by
  induction M with
  | nil => cases hy
  | cons k M ih =>
    rw [List.nodup_cons] at hM
    rcases List.mem_cons.mp hy with rfl | hyM
    · have h0 : (M.map (fun k => if y = k then 1 else 0)).sum = 0 := by
        apply List.sum_eq_zero
        intro x hx
        rcases List.mem_map.mp hx with ⟨k, hk, rfl⟩
        have hyk : ¬y = k := fun h => hM.1 (h ▸ hk)
        simp [hyk]
      simp [h0]
    · have hyk : ¬y = k := fun h => hM.1 (h ▸ hyM)
      simp [hyk, ih hM.2 hyM]

theorem sum_countP_of_nodup {κ : Type} [DecidableEq κ] {M : List κ}
    (hM : M.Nodup) :
    ∀ {L : List κ}, (∀ y ∈ L, y ∈ M) →
      (M.map (fun k => L.countP (fun y => decide (y = k)))).sum = L.length := by
  intro L
  induction L with
  | nil =>
    intro _
    simp only [List.countP_nil]
    apply List.sum_eq_zero
    intro x hx
    rcases List.mem_map.mp hx with ⟨k, hk, hkx⟩
    exact hkx.symm
  | cons y L ih =>
    intro hL
    have h2 : (M.map (fun k => (y :: L).countP (fun x => decide (x = k)))).sum
        = (M.map (fun k =>
            L.countP (fun x => decide (x = k)) + (if y = k then 1 else 0))).sum := by
      congr 1
      apply List.map_congr_left
      intro k _
      rw [List.countP_cons]
      simp
    rw [h2, sum_map_add_nat,
        ih (fun z hz => hL z (List.mem_cons_of_mem _ hz)),
        sum_indicator_one hM (hL y (List.mem_cons_self _ _))]
    simp

theorem sum_group_lengths {α κ : Type} [DecidableEq κ] (f : α → κ)
    (docs : List α) :
    ((dedupFirst (docs.map f)).map
        (fun k => (docs.filter (fun x => decide (f x = k))).length)).sum
      = docs.length := by
  have h1 : ∀ k : κ, (docs.filter (fun x => decide (f x = k))).length
      = (docs.map f).countP (fun y => decide (y = k)) := by
    intro k
    rw [← List.countP_eq_length_filter, List.countP_map]
    rfl
  have h2 : ((dedupFirst (docs.map f)).map
        (fun k => (docs.filter (fun x => decide (f x = k))).length)).sum
      = ((dedupFirst (docs.map f)).map
        (fun k => (docs.map f).countP (fun y => decide (y = k)))).sum := by
    congr 1
    exact List.map_congr_left (fun k _ => h1 k)
  rw [h2, sum_countP_of_nodup (nodup_dedupFirst _)
      (fun y hy => mem_dedupFirst.mpr hy)]
  exact List.length_map docs f

theorem countP_dedupFirst_eq_one {α κ : Type} [DecidableEq κ] (f : α → κ)
    {docs : List α} {a : α} (ha : a ∈ docs) :
    (dedupFirst (docs.map f)).countP (fun k => decide (k = f a)) = 1 :=
  countP_eq_one_of_nodup (nodup_dedupFirst _)
    (mem_dedupFirst.mpr (List.mem_map_of_mem f ha))

theorem mem_sorted_map_iff {κ β : Type} (r : β → β → Prop) [DecidableRel r]
    (g : κ → β) (keys : List κ) (b : β) :
    b ∈ (keys.map g).insertionSort r ↔ ∃ k ∈ keys, g k = b := by
  rw [(List.perm_insertionSort r _).mem_iff, List.mem_map]

/-- Each matched order's day key identifies exactly one bucket of the
daily sales report. -/
theorem daily_countP_date {db : DB} {o : Order} (hom : o ∈ dailyMatched db) :
    (dailySalesReport db).countP
      (fun b => decide (b.date = dayKey o.createdAt)) = 1 := by
  rw [dailySalesReport, (List.perm_insertionSort _ _).countP_eq,
      List.countP_map]
  exact countP_dedupFirst_eq_one (fun o => dayKey o.createdAt) hom

/-! ## Claims -/

/-- Claim C2: every order passing the daily-sales status filter lands in
exactly one day bucket, and the bucket `totalOrders` counts sum to the
number of filtered orders. -/
theorem daily_sales_partition (db : DB) :
    (∀ o ∈ db.orders, decide (o.status ∈ dailyMatchStatuses) = true →
        (dailySalesReport db).countP
          (fun b => decide (b.date = dayKey o.createdAt)) = 1)
    ∧ ((dailySalesReport db).map DailyBucket.totalOrders).sum
        = (db.orders.filter (fun o => decide (o.status ∈ dailyMatchStatuses))).length := by
  constructor
  · intro o ho hst
    exact daily_countP_date (List.mem_filter.mpr ⟨ho, hst⟩)
  · rw [dailySalesReport,
        ((List.perm_insertionSort _ _).map DailyBucket.totalOrders).sum_eq,
        List.map_map]
    exact sum_group_lengths (fun o => dayKey o.createdAt) (dailyMatched db)

/-- Witness for C2 at the sample snapshot. -/
theorem daily_sales_partition_witness :
    exOrder ∈ exDB.orders ∧
      decide (exOrder.status ∈ dailyMatchStatuses) = true ∧
      (dailySalesReport exDB).countP
        (fun b => decide (b.date = dayKey exOrder.createdAt)) = 1 :=
  ⟨by decide, by decide,
    (daily_sales_partition exDB).1 exOrder (by decide) (by decide)⟩

/-- Claim C5: each month bucket's `totalSales` is the sum of `total_price`
over exactly the status-filtered orders created in that month. -/
theorem monthly_totalSales (db : DB) :
    ∀ b ∈ monthlySalesReport db,
      b.totalSales = ((db.orders.filter (fun o =>
          decide (monthKey o.createdAt = b.month)
            && decide (o.status ∈ dailyMatchStatuses))).map
        Order.total_price).sum := by
  intro b hb
  rw [monthlySalesReport, mem_sorted_map_iff] at hb
  rcases hb with ⟨k, hk, rfl⟩
  show ((monthlyGrp db k).map Order.total_price).sum = _
  rw [monthlyGrp, dailyMatched, List.filter_filter]
  rfl

/-- Witness for C5 at the sample snapshot. -/
theorem monthly_totalSales_witness :
    ({ month := (2024, 3), totalOrders := 1, totalSales := 100 } : MonthBucket)
        ∈ monthlySalesReport exDB ∧
      ({ month := (2024, 3), totalOrders := 1, totalSales := 100 } : MonthBucket).totalSales
        = ((exDB.orders.filter (fun o =>
            decide (monthKey o.createdAt
                = ({ month := (2024, 3), totalOrders := 1, totalSales := 100 } : MonthBucket).month)
              && decide (o.status ∈ dailyMatchStatuses))).map
          Order.total_price).sum :=
  ⟨by decide, monthly_totalSales exDB _ (by decide)⟩

/-- Claim C3: each product row's `quantity` is the sum of the quantities
of all joined order-item rows carrying that product id, and the report is
non-increasing in `quantity`. -/
theorem product_report_quantity (db : DB) :
    (∀ r ∈ userProductReport db,
        r.quantity = (((userProductRows db).filter
          (fun it => decide (it.product_id = r.product_key))).map
            OrderItem.quantity).sum)
    ∧ (userProductReport db).Pairwise (fun a b => b.quantity ≤ a.quantity) := by
  constructor
  · intro r hr
    rw [userProductReport, mem_sorted_map_iff] at hr
    rcases hr with ⟨p, hp, rfl⟩
    rfl
  · rw [userProductReport]
    haveI : IsTrans ProductRow (fun a b => b.quantity ≤ a.quantity) :=
      ⟨fun _ _ _ hab hbc => le_trans hbc hab⟩
    haveI : IsTotal ProductRow (fun a b => b.quantity ≤ a.quantity) :=
      ⟨fun a b => le_total b.quantity a.quantity⟩
    exact List.sorted_insertionSort _ _

/-- Witness for C3 at the sample snapshot. -/
theorem product_report_quantity_witness :
    exProductRow ∈ userProductReport exDB ∧
      exProductRow.quantity = (((userProductRows exDB).filter
        (fun it => decide (it.product_id = exProductRow.product_key))).map
          OrderItem.quantity).sum :=
  ⟨by decide, (product_report_quantity exDB).1 exProductRow (by decide)⟩

/-- Claim C7: every product row resolves `name` and `category` to absent,
since they are `$first` reads of fields the order-item schema does not
declare. -/
theorem product_report_name_category_absent (db : DB) :
    ∀ r ∈ userProductReport db, r.name = none ∧ r.category = none := by
  intro r hr
  rw [userProductReport, mem_sorted_map_iff] at hr
  rcases hr with ⟨p, hp, rfl⟩
  refine ⟨?_, ?_⟩ <;>
  · simp only [productRow]
    cases h : (upGrp db p).head? <;> simp [OrderItem.getStr]

/-- Witness for C7 at the sample snapshot. -/
theorem product_report_name_category_absent_witness :
    exProductRow ∈ userProductReport exDB ∧
      exProductRow.name = none ∧ exProductRow.category = none :=
  ⟨by decide,
    product_report_name_category_absent exDB exProductRow (by decide)⟩

/-- Claim C4: each summary of the customer-order report counts in
`totalOrders` exactly that customer's orders with status completed or
confirmed; pending and cancelled orders are counted nowhere. -/
theorem user_order_totalOrders (db : DB) :
    ∀ r ∈ userOrderReport db,
      r.totalOrders = (db.orders.filter (fun o =>
          decide (o.customer_id = r.customer_id)
            && decide (o.status ∈ completedConfirmed))).length := by
  intro r hr
  rw [userOrderReport, (List.perm_insertionSort _ _).mem_iff,
      List.mem_flatMap] at hr
  rcases hr with ⟨cid, hcid, hr2⟩
  rcases List.mem_map.mp hr2 with ⟨c, hc, rfl⟩
  have hcide : (uoRow db cid c).customer_id = cid := by
    have h2 := (List.mem_filter.mp hc).2
    simp only [uoRow]
    simpa using h2
  rw [hcide]
  show (uoGrp db cid).length = _
  rw [uoGrp, uoMatched, List.filter_filter]

/-- Witness for C4 at the sample snapshot. -/
theorem user_order_totalOrders_witness :
    aliceSummary ∈ userOrderReport exDB ∧
      aliceSummary.totalOrders = (exDB.orders.filter (fun o =>
          decide (o.customer_id = aliceSummary.customer_id)
            && decide (o.status ∈ completedConfirmed))).length :=
  ⟨by decide, user_order_totalOrders exDB aliceSummary (by decide)⟩

/-- Claim C6: an order whose customer reference matches no user document
still lands in its day bucket of the daily sales report, counted and
pushed with an absent customer name. -/
theorem daily_unmatched_customer (db : DB) (o : Order) (ho : o ∈ db.orders)
    (hst : decide (o.status ∈ dailyMatchStatuses) = true)
    (hu : db.users.filter (fun u => decide (u.id = o.customer_id)) = []) :
    0 < (dailySalesReport db).countP
        (fun b => decide (b.date = dayKey o.createdAt))
    ∧ ∀ b ∈ dailySalesReport db, b.date = dayKey o.createdAt →
        ({ customer := none, status := o.status,
           items := lookupItemsByOrderId db.orderItems o.id,
           total := o.total_price } : DailyOrderRec) ∈ b.orders
        ∧ 0 < b.totalOrders := by
  have hom : o ∈ dailyMatched db := List.mem_filter.mpr ⟨ho, hst⟩
  have hgrp : o ∈ dailyGrp db (dayKey o.createdAt) :=
    List.mem_filter.mpr ⟨hom, by simp⟩
  constructor
  · rw [daily_countP_date hom]
    exact Nat.zero_lt_one
  · intro b hb hdate
    rw [dailySalesReport, mem_sorted_map_iff] at hb
    rcases hb with ⟨k, hk, rfl⟩
    have hkd : k = dayKey o.createdAt := hdate
    subst hkd
    constructor
    · apply List.mem_map.mpr
      refine ⟨o, hgrp, ?_⟩
      rw [dailyOrderRec, lookupUserFirst, hu]
      rfl
    · exact List.length_pos_of_mem hgrp

/-- Witness for C6: the day bucket of the dangling-reference snapshot. -/
theorem daily_unmatched_customer_witness :
    exOrder2 ∈ exDB2.orders ∧
      decide (exOrder2.status ∈ dailyMatchStatuses) = true ∧
      exDB2.users.filter (fun u => decide (u.id = exOrder2.customer_id)) = [] ∧
      ({ customer := none, status := exOrder2.status,
         items := lookupItemsByOrderId exDB2.orderItems exOrder2.id,
         total := exOrder2.total_price } : DailyOrderRec)
        ∈ ({ date := (2024, 3, 6),
             orders := [{ customer := none, status := "pending", items := [], total := 60 }],
             totalOrders := 1, totalSales := 60 } : DailyBucket).orders :=
  ⟨by decide, by decide, by decide,
    ((daily_unmatched_customer exDB2 exOrder2 (by decide) (by decide)
        (by decide)).2
      { date := (2024, 3, 6),
        orders := [{ customer := none, status := "pending", items := [], total := 60 }],
        totalOrders := 1, totalSales := 60 }
      (by decide) (by decide)).1⟩

/-- Claim C1: a `(status, customer)` group whose customer reference
matches no customer document is dropped by the inner join of the
order-status report, so its customer id appears in no value list, and a
status all of whose groups fail the join is absent from the map. -/
theorem order_status_join_drop (db : DB) :
    (∀ cid : Nat, db.customers.filter (fun c => decide (c.id = cid)) = [] →
        ∀ p ∈ orderStatusReport db, ∀ u ∈ p.2, u.customer_id ≠ cid)
    ∧ (∀ s : String,
        (∀ o ∈ db.orders, decide (o.status ∈ statusMatchStatuses) = true →
          o.status = s →
          db.customers.filter (fun c => decide (c.id = o.customer_id)) = []) →
        ∀ p ∈ orderStatusReport db, p.1 ≠ s) := by
  constructor
  · intro cid hcid p hp u hu
    rw [orderStatusReport, mem_sorted_map_iff] at hp
    rcases hp with ⟨s, hs, rfl⟩
    rcases List.mem_map.mp hu with ⟨r, hrf, rfl⟩
    have hr : r ∈ orderStatusJoined db := (List.mem_filter.mp hrf).1
    rw [orderStatusJoined] at hr
    rcases List.mem_flatMap.mp hr with ⟨g, hg, hrg⟩
    rcases List.mem_map.mp hrg with ⟨c, hcf, rfl⟩
    intro hequ
    have hceq : c.id = cid := hequ
    have hcmem : c ∈ db.customers := (List.mem_filter.mp hcf).1
    have hcontra : c ∈ db.customers.filter (fun x => decide (x.id = cid)) :=
      List.mem_filter.mpr ⟨hcmem, by simp [hceq]⟩
    rw [hcid] at hcontra
    cases hcontra
  · intro s hs p hp
    rw [orderStatusReport, mem_sorted_map_iff] at hp
    rcases hp with ⟨s', hs', rfl⟩
    intro heq
    have hss : s' = s := heq
    have hmem : s' ∈ (orderStatusJoined db).map Prod.fst := mem_dedupFirst.mp hs'
    rcases List.mem_map.mp hmem with ⟨r, hr, hrs⟩
    rw [orderStatusJoined] at hr
    rcases List.mem_flatMap.mp hr with ⟨g, hg, hrg⟩
    rcases List.mem_map.mp hrg with ⟨c, hcf, rfl⟩
    rw [orderStatusGroups] at hg
    rcases List.mem_map.mp hg with ⟨k, hk, rfl⟩
    have hkm : k ∈ (osMatched db).map (fun o => (o.status, o.customer_id)) :=
      mem_dedupFirst.mp hk
    rcases List.mem_map.mp hkm with ⟨o, hom, hko⟩
    have homem : o ∈ db.orders := (List.mem_filter.mp hom).1
    have host : decide (o.status ∈ statusMatchStatuses) = true :=
      (List.mem_filter.mp hom).2
    have hos : o.status = s := by
      have h1 : o.status = k.1 := by rw [← hko]
      have h2 : k.1 = s' := hrs
      rw [h1, h2, hss]
    have hfe := hs o homem host hos
    have hgcid : (osGroup db k).customerId = o.customer_id := by
      rw [← hko]
      rfl
    have hcf2 : c ∈ db.customers.filter (fun x => decide (x.id = o.customer_id)) := by
      rw [← hgcid]
      exact hcf
    rw [hfe] at hcf2
    cases hcf2

/-- Witness for C1: customer reference 2 is dangling in `exDB3`, so the
lone report entry carries only customer 1 and no `cancelled` key exists. -/
theorem order_status_join_drop_witness :
    exDB3.customers.filter (fun c => decide (c.id = 2)) = [] ∧
      aliceSummary.customer_id ≠ 2 ∧
      ("completed", [aliceSummary]).1 ≠ "cancelled" :=
  ⟨by decide,
    (order_status_join_drop exDB3).1 2 (by decide)
      ("completed", [aliceSummary]) (by decide) aliceSummary (by decide),
    (order_status_join_drop exDB3).2 ("cancelled") (by decide)
      ("completed", [aliceSummary]) (by decide)⟩

/-! ## Gate and envelope properties -/

/-- Whether a store read failed. -/
def exceptErr {ε α : Type} : Except ε α → Bool
  | .error _ => true
  | .ok _ => false

theorem exceptErr_map {ε α β : Type} (f : α → β) (q : Except ε α) :
    exceptErr (q.map f) = exceptErr q := by
  cases q <;> rfl

/-- Gate behaviour of one handler call: the query runs exactly when the
admin gate passes, a failed gate answers 403, a missing user or falsy
`is_admin` answers `{error: "Access denied"}`, and an admin-flagged user
with a different role answers `{message: "Forbidden"}`. -/
def gateSpec {α : Type} (user : Option UserCtx) (run : HandlerRun α) : Prop :=
  run.queried = adminOk user
  ∧ (adminOk user = false → run.resp.status = 403)
  ∧ (user = none ∨ (∃ u, user = some u ∧ u.is_admin = false) →
      run.resp = ⟨403, Body.errJson ("Access denied")⟩)
  ∧ (∀ u, user = some u → u.is_admin = true → u.role ≠ "admin" →
      run.resp = ⟨403, Body.msgJson ("Forbidden")⟩)

theorem gateSpec_runHandler {α : Type} (user : Option UserCtx)
    (errMsg : String) (q : Except String α) :
    gateSpec user (runHandler user errMsg q) := by
  simp only [gateSpec]
  rcases user with _ | u
  · exact ⟨rfl, fun _ => rfl, fun _ => rfl, fun u h => by cases h⟩
  · by_cases ha : u.is_admin = true
    · by_cases hr : u.role = "admin"
      · refine ⟨?_, ?_, ?_, ?_⟩
        · cases q <;> simp [runHandler, adminOk, ha, hr]
        · intro hfalse
          simp [adminOk, ha, hr] at hfalse
        · rintro (h | ⟨u', hu', hfa⟩)
          · cases h
          · injection hu' with h
            subst h
            rw [ha] at hfa
            exact Bool.noConfusion hfa
        · intro u' hu' _ hrole
          injection hu' with h
          subst h
          exact absurd hr hrole
      · refine ⟨?_, ?_, ?_, ?_⟩
        · simp [runHandler, adminOk, ha, hr]
        · intro _
          simp [runHandler, ha, hr]
        · rintro (h | ⟨u', hu', hfa⟩)
          · cases h
          · injection hu' with h
            subst h
            rw [ha] at hfa
            exact Bool.noConfusion hfa
        · intro u' hu' _ _
          injection hu' with h
          subst h
          simp [runHandler, ha, hr]
    · have ha' : u.is_admin = false := by
        simp at ha
        exact ha
      refine ⟨?_, ?_, ?_, ?_⟩
      · simp [runHandler, adminOk, ha']
      · intro _
        simp [runHandler, ha']
      · intro _
        simp [runHandler, ha']
      · intro u' hu' hadm _
        injection hu' with h
        subst h
        rw [ha'] at hadm
        exact Bool.noConfusion hadm

/-- Claim C10: every report endpoint queries the store exactly when the
caller's user object exists with a truthy `is_admin` flag and role
`admin`; both denial branches answer 403 before any query, with
`{error: "Access denied"}` for a missing user or falsy `is_admin` and
`{message: "Forbidden"}` for a wrong role. -/
theorem report_admin_gate (user : Option UserCtx) (q : Except String DB) :
    gateSpec user (dailySalesEndpoint user q)
    ∧ gateSpec user (monthlySalesEndpoint user q)
    ∧ gateSpec user (orderStatusEndpoint user q)
    ∧ gateSpec user (userOrderEndpoint user q)
    ∧ gateSpec user (userProductEndpoint user q) :=
  ⟨gateSpec_runHandler user ("Report error") (q.map dailySalesReport),
   gateSpec_runHandler user ("Failed to generate monthly sales report")
     (q.map monthlySalesReport),
   gateSpec_runHandler user ("Failed to generate user report")
     (q.map orderStatusReport),
   gateSpec_runHandler user ("Failed to generate user report")
     (q.map userOrderReport),
   gateSpec_runHandler user ("Failed to generate user product report")
     (q.map userProductReport)⟩

/-- Witness for C10: both denial branches at concrete callers. -/
theorem report_admin_gate_witness :
    (dailySalesEndpoint (some { is_admin := false, role := "admin" })
        (Except.ok exDB)).resp = ⟨403, Body.errJson ("Access denied")⟩ ∧
      (dailySalesEndpoint (some { is_admin := true, role := "user" })
        (Except.ok exDB)).resp = ⟨403, Body.msgJson ("Forbidden")⟩ :=
  ⟨((report_admin_gate (some { is_admin := false, role := "admin" })
        (Except.ok exDB)).1).2.2.1
      (Or.inr ⟨{ is_admin := false, role := "admin" }, rfl, rfl⟩),
   ((report_admin_gate (some { is_admin := true, role := "user" })
        (Except.ok exDB)).1).2.2.2
      { is_admin := true, role := "user" } rfl rfl (by decide)⟩

/-- Response-envelope behaviour of one handler call, as the code
implements it: the response is the 200 success envelope, a 403 denial
with one of the two denial bodies, or the 500 `{error: errMsg}` failure;
403 happens exactly on gate failure and 500 exactly on a failed store
read behind a passed gate. -/
def envelopeSpec {α : Type} (errMsg : String) (user : Option UserCtx)
    (qerr : Bool) (run : HandlerRun α) : Prop :=
  ((run.resp.status = 200 ∧ ∃ r, run.resp.body = Body.success r)
    ∨ (run.resp.status = 403
        ∧ (run.resp.body = Body.errJson ("Access denied")
            ∨ run.resp.body = Body.msgJson ("Forbidden")))
    ∨ (run.resp.status = 500 ∧ run.resp.body = Body.errJson errMsg))
  ∧ (run.resp.status = 403 ↔ adminOk user = false)
  ∧ (run.resp.status = 500 ↔ (adminOk user = true ∧ qerr = true))

theorem envelopeSpec_runHandler {α : Type} (user : Option UserCtx)
    (errMsg : String) (q : Except String α) :
    envelopeSpec errMsg user (exceptErr q) (runHandler user errMsg q) := by
  rcases user with _ | u
  · simp [envelopeSpec, runHandler, adminOk]
  · by_cases ha : u.is_admin = true
    · by_cases hr : u.role = "admin"
      · cases q <;> simp [envelopeSpec, runHandler, adminOk, exceptErr, ha, hr]
      · simp [envelopeSpec, runHandler, adminOk, ha, hr]
    · have ha' : u.is_admin = false := by
        simp at ha
        exact ha
      simp [envelopeSpec, runHandler, adminOk, ha']

/-- Claim C8 (amended): every report endpoint answers with the success
envelope, one of the two 403 denial bodies — `{error: "Access denied"}`
or, for the role check, `{message: "Forbidden"}` — or the 500
`{error: msg}` internal failure, with 403 and 500 signalled distinctly. -/
theorem report_envelopes (user : Option UserCtx) (q : Except String DB) :
    envelopeSpec ("Report error") user (exceptErr q)
        (dailySalesEndpoint user q)
    ∧ envelopeSpec ("Failed to generate monthly sales report") user
        (exceptErr q) (monthlySalesEndpoint user q)
    ∧ envelopeSpec ("Failed to generate user report") user (exceptErr q)
        (orderStatusEndpoint user q)
    ∧ envelopeSpec ("Failed to generate user report") user (exceptErr q)
        (userOrderEndpoint user q)
    ∧ envelopeSpec ("Failed to generate user product report") user
        (exceptErr q) (userProductEndpoint user q) := by
  refine ⟨?_, ?_, ?_, ?_, ?_⟩
  · have h := envelopeSpec_runHandler user ("Report error")
      (q.map dailySalesReport)
    rw [exceptErr_map] at h
    exact h
  · have h := envelopeSpec_runHandler user
      ("Failed to generate monthly sales report") (q.map monthlySalesReport)
    rw [exceptErr_map] at h
    exact h
  · have h := envelopeSpec_runHandler user
      ("Failed to generate user report") (q.map orderStatusReport)
    rw [exceptErr_map] at h
    exact h
  · have h := envelopeSpec_runHandler user
      ("Failed to generate user report") (q.map userOrderReport)
    rw [exceptErr_map] at h
    exact h
  · have h := envelopeSpec_runHandler user
      ("Failed to generate user product report") (q.map userProductReport)
    rw [exceptErr_map] at h
    exact h

/-- Witness for the amended C8 at a concrete admin caller and snapshot. -/
theorem report_envelopes_witness :
    envelopeSpec ("Report error") (some { is_admin := true, role := "admin" })
      (exceptErr (Except.ok exDB : Except String DB))
      (dailySalesEndpoint (some { is_admin := true, role := "admin" })
        (Except.ok exDB)) :=
  (report_envelopes (some { is_admin := true, role := "admin" })
    (Except.ok exDB)).1

/-- Counterexample for C8 as stated: with `is_admin` truthy and role
`user`, the daily-sales handler answers 403 with a body that is neither
the success envelope nor an `{error: msg}` failure envelope. -/
theorem report_envelopes_counterexample :
    (dailySalesEndpoint (some { is_admin := true, role := "user" })
        (Except.ok exDB)).resp.status = 403
    ∧ (dailySalesEndpoint (some { is_admin := true, role := "user" })
        (Except.ok exDB)).resp.body.isSuccess = false
    ∧ (dailySalesEndpoint (some { is_admin := true, role := "user" })
        (Except.ok exDB)).resp.body.isErrJson = false :=
  ⟨rfl, rfl, rfl⟩

/-- Claim C9: each report generator leaves the store snapshot unchanged,
and a second call on the state left behind returns the same report. -/
theorem reports_idempotent (db : DB) :
    ((runDailySales db).1 = db
      ∧ (runDailySales (runDailySales db).1).2 = (runDailySales db).2)
    ∧ ((runMonthlySales db).1 = db
      ∧ (runMonthlySales (runMonthlySales db).1).2 = (runMonthlySales db).2)
    ∧ ((runOrderStatus db).1 = db
      ∧ (runOrderStatus (runOrderStatus db).1).2 = (runOrderStatus db).2)
    ∧ ((runUserOrder db).1 = db
      ∧ (runUserOrder (runUserOrder db).1).2 = (runUserOrder db).2)
    ∧ ((runUserProduct db).1 = db
      ∧ (runUserProduct (runUserProduct db).1).2 = (runUserProduct db).2) :=
  ⟨⟨rfl, rfl⟩, ⟨rfl, rfl⟩, ⟨rfl, rfl⟩, ⟨rfl, rfl⟩, ⟨rfl, rfl⟩⟩

end Click2Eat
